import Mathlib

/-!
Verification of the `ts-can` permission library (`src/lib/can.ts`).

The library evaluates declarative authorization rules against a map of
per-module permissions.  We give a shallow embedding of the two exported
functions, `checkPermissions` (the single-rule matcher, called `matches`
in the design document) and `canAllow` (the all-rules aggregator), and
prove or refute the documented properties.

Modelling conventions:

* JavaScript objects used as string-keyed dictionaries (`Abilities`,
  `Checks`, `Permissions`, `TestRules`) become association lists over
  `String`; property lookup is own-key lookup (`alookup`).
* The opaque `target : unknown` value becomes a type parameter `α`.
  JavaScript's ToBoolean coercion on the target (the source tests
  `rules.checks && rules.target` for truthiness) is an explicit
  parameter `tr : α → Bool`.
* An absent optional field is `Option.none`.
* A thrown runtime error (invoking a missing check predicate, i.e.
  `permModule.checks[check](rules.target)` where the lookup yields
  `undefined`) is modelled as the result `Option.none` of type
  `Option Bool`; `some b` is a normal boolean return.
* The source guards `if (rules.abilities.find(...))` and
  `if (rules.checks.find(...))` test the truthiness of the *element
  found* (a string): a found empty string `""` is falsy and does not
  trigger the `return false`.  Likewise `canAllow` returns
  `!Object.keys(test).find(...)`, so a failing key `""` does not make
  the result `false`.  The embedding reproduces this exactly.
-/

/-- One JS permission module: `{ abilities: Abilities, checks: Checks }`.
`abilities` maps ability names to boolean grant flags; `checks` maps
check names to predicates on the opaque target type `α`. -/
structure PermissionModule (α : Type) where
  abilities : List (String × Bool)
  checks : List (String × (α → Bool))

/-- Type `Permissions`: mapping from module name to `PermissionModule`. -/
abbrev Permissions (α : Type) := List (String × PermissionModule α)

/-- Type `Rules`: one access request; all fields optional. -/
structure Rules (α : Type) where
  module : Option String := none
  abilities : Option (List String) := none
  checks : Option (List String) := none
  target : Option α := none

/-- Type `TestRules`: mapping from a label to a `Rules` value. -/
abbrev TestRules (α : Type) := List (String × Rules α)

/-- Own-property lookup on a JS object modelled as an association list:
`m[k]` is the value at the first occurrence of the key, else absent. -/
def alookup {β : Type} : List (String × β) → String → Option β
  | [], _ => none
  | (k, v) :: rest, key => if k = key then some v else alookup rest key

/-- The abilities step of `checkPermissions`:
`rules.abilities.find((ability) => !permModule.abilities[ability])`
followed by `if (<found>) return false`.  `find` returns the first
ability whose flag is absent or `false`; the guard then tests the
truthiness of that *string*, so a found `""` does not deny. -/
def abilitiesDeny {α : Type} (permModule : PermissionModule α) :
    Option (List String) → Bool
  | none => false
  | some abilities =>
    match abilities.find? (fun a => !((alookup permModule.abilities a).getD false)) with
    | some a => a != ""
    | none => false

/-- The iteration inside
`rules.checks.find((check) => !permModule.checks[check](rules.target))`:
walk the check names in order; invoking a missing predicate throws
(`none`); otherwise stop at the first predicate returning `false`
(`some (some name)`), or report no failure (`some none`). -/
def findFailingCheck {α : Type} (permModule : PermissionModule α) (t : α) :
    List String → Option (Option String)
  | [] => some none
  | c :: cs =>
    match alookup permModule.checks c with
    | none => none
    | some f => if f t then findFailingCheck permModule t cs else some (some c)

/-- The checks step of `checkPermissions`: guarded by
`if (rules.checks && rules.target)` — an array is always truthy, the
target is coerced with `tr` — then `if (<found>) return false`, where a
found `""` is falsy and does not deny.  A thrown error propagates. -/
def checksResult {α : Type} (tr : α → Bool) (permModule : PermissionModule α) :
    Option (List String) → Option α → Option Bool
  | some checks, some t =>
    if tr t then
      match findFailingCheck permModule t checks with
      | none => none
      | some (some c) => if c = "" then some true else some false
      | some none => some true
    else some true
  | _, _ => some true

/-- The function `checkPermissions(permissions, rules)` from `src/lib/can.ts`:
1. `rules.module === undefined || rules.module === 'undefined'` → `true`;
2. `permissions[rules.module]` absent → `false`;
3. abilities step (deny on a found truthy failing name);
4. checks step (only when `rules.checks` present and target truthy);
5. otherwise `true`.  `none` models a thrown error. -/
def checkPermissions {α : Type} (tr : α → Bool) (permissions : Permissions α)
    (rules : Rules α) : Option Bool :=
  match rules.module with
  | none => some true
  | some mn =>
    if mn = "undefined" then some true
    else
      match alookup permissions mn with
      | none => some false
      | some permModule =>
        if abilitiesDeny permModule rules.abilities then some false
        else checksResult tr permModule rules.checks rules.target

/-- The iteration inside `canAllow`:
`Object.keys(test).find((key) => !checkPermissions(permissions, {...test[key], module: key}))`.
Walk the labelled rules in order; a thrown error propagates (`none`);
otherwise return the first label whose effective rule fails
(`some (some key)`) or report none (`some none`). -/
def canAllowFind {α : Type} (tr : α → Bool) (permissions : Permissions α) :
    TestRules α → Option (Option String)
  | [] => some none
  | (key, r) :: rest =>
    match checkPermissions tr permissions { r with module := some key } with
    | none => none
    | some true => canAllowFind tr permissions rest
    | some false => some (some key)

/-- The function `canAllow(permissions, test)` from `src/lib/can.ts`:
`!Object.keys(test).find(...)`.  The negation is applied to the found
*key string*, so a failing key `""` still yields `true`. -/
def canAllow {α : Type} (tr : α → Bool) (permissions : Permissions α)
    (test : TestRules α) : Option Bool :=
  match canAllowFind tr permissions test with
  | none => none
  | some (some key) => some (key = "")
  | some none => some true

/-- The sample permission store of the README, docs and tests, with
`target` instantiated as a pair of booleans `(isAdmin, isValidUser)`. -/
def userPermissions : Permissions (Bool × Bool) :=
  [("moduleA", { abilities := [("read", true), ("write", false)],
                 checks := [("isAdmin", fun t => t.1)] }),
   ("moduleB", { abilities := [("read", true), ("write", true)],
                 checks := [("hasAccess", fun t => t.2)] })]

/-- JS truthiness for the sample target type: any object is truthy. -/
def trPair : Bool × Bool → Bool := fun _ => true

/-- Scenario 1 of the documentation: a granted ability passes. -/
theorem docScenario1 : checkPermissions trPair userPermissions
    { module := some ("moduleA"), abilities := some ["read"] } = some true := by decide

/-- Scenario 2 of the documentation: a denied ability fails. -/
theorem docScenario2 : checkPermissions trPair userPermissions
    { module := some ("moduleA"), abilities := some ["write"] } = some false := by decide

/-- Scenario 3 of the documentation: a failing check denies. -/
theorem docScenario3 : checkPermissions trPair userPermissions
    { module := some ("moduleB"), checks := some ["hasAccess"],
      target := some (false, false) } = some false := by decide

/-- Scenario 4 of the documentation: the empty rule passes. -/
theorem docScenario4 : checkPermissions trPair userPermissions ({} : Rules (Bool × Bool)) =
    some true := by decide

/-- Scenario 5 of the documentation: an unknown module denies. -/
theorem docScenario5 : checkPermissions trPair userPermissions
    { module := some ("nonExistentModule"), abilities := some ["read"] } =
    some false := by decide

/-- Scenario 6 of the documentation: the aggregator over two passing rules. -/
theorem docScenario6 : canAllow trPair userPermissions
    [("moduleA", { abilities := some ["read"] }),
     ("moduleB", { checks := some ["hasAccess"], target := some (true, true) })] =
    some true := by decide

/-- Scenario 6, second half: flipping `moduleA` to `write` flips the result. -/
theorem docScenario6b : canAllow trPair userPermissions
    [("moduleA", { abilities := some ["write"] }),
     ("moduleB", { checks := some ["hasAccess"], target := some (true, true) })] =
    some false := by decide

/-! ## Claim C4: absent or `undefined` (as string) module always passes -/

/-- C4: for every permissions map `p` (including an empty one) and every
rule whose `module` field is absent or equal to the literal string
`"undefined"`, `checkPermissions` returns `true` regardless of the
rule's abilities, checks, target, and the content of `p`. -/
theorem checkPermissions_module_absent_or_undefined {α : Type} (tr : α → Bool)
    (p : Permissions α) (rules : Rules α)
    (h : rules.module = none ∨ rules.module = some ("undefined")) :
    checkPermissions tr p rules = some true := by
  rcases h with h | h <;> simp [checkPermissions, h]

/-- Witness for C4 at a concrete input: an empty permission store and a
rule carrying abilities, checks and a target, but module `"undefined"`. -/
theorem checkPermissions_module_absent_or_undefined_witness :
    checkPermissions (fun _ : Unit => true) ([] : Permissions Unit)
      { module := some ("undefined"), abilities := some ["write"],
        checks := some ["isAdmin"], target := some () } = some true :=
  checkPermissions_module_absent_or_undefined _ _ _ (Or.inr rfl)

/-! ## Claim C5: unknown module always denies -/

/-- C5: for every permissions map `p` and every rule whose `module` field
is present, not `"undefined"`, and not a key of `p`, `checkPermissions`
returns `false`, regardless of the rule's abilities, checks, target. -/
theorem checkPermissions_module_not_found {α : Type} (tr : α → Bool)
    (p : Permissions α) (rules : Rules α) (mn : String)
    (hmo : rules.module = some mn) (hmu : mn ≠ "undefined")
    (hl : alookup p mn = none) :
    checkPermissions tr p rules = some false := by
  simp [checkPermissions, hmo, hmu, hl]

/-- Witness for C5 at a concrete input: the sample store and the module
name `"nonExistentModule"`. -/
theorem checkPermissions_module_not_found_witness :
    checkPermissions trPair userPermissions
      { module := some ("nonExistentModule"), abilities := some ["read"],
        checks := some ["isAdmin"], target := some (true, true) } = some false :=
  checkPermissions_module_not_found _ _ _ ("nonExistentModule") rfl
    (by decide) rfl

/-! ## Claim C6: checks without a target are inert -/

/-- C6: for every rule whose `checks` list is present but whose `target`
is absent, the result equals that for the same rule with `checks`
omitted: the checks step cannot affect the result. -/
theorem checkPermissions_checks_without_target {α : Type} (tr : α → Bool)
    (p : Permissions α) (rules : Rules α)
    (hc : rules.checks.isSome = true) (ht : rules.target = none) :
    checkPermissions tr p rules =
      checkPermissions tr p { rules with checks := none } := by
  rcases rules with ⟨mo, ab, ch, tg⟩
  cases ht
  cases mo with
  | none => rfl
  | some mn =>
    by_cases hmn : mn = "undefined"
    · simp [checkPermissions, hmn]
    · cases hl : alookup p mn with
      | none => simp [checkPermissions, hmn, hl]
      | some m =>
        have hcr : checksResult tr m ch none = checksResult tr m none none := by
          cases ch <;> rfl
        simp [checkPermissions, hmn, hl, hcr]

/-- Witness for C6 at a concrete input: a rule on `moduleA` with a
check list but no target; both sides evaluate to `some true`. -/
theorem checkPermissions_checks_without_target_witness :
    checkPermissions trPair userPermissions
      { module := some ("moduleA"), abilities := some ["read"],
        checks := some ["isAdmin"] } =
    checkPermissions trPair userPermissions
      { module := some ("moduleA"), abilities := some ["read"] } :=
  checkPermissions_checks_without_target _ _ _ rfl rfl

/-! ## Claim C9: a module literally named `undefined` is unreachable -/

/-- C9: for every permissions map containing an entry under the key
`"undefined"` and every rule whose module equals `"undefined"`,
`checkPermissions` returns `true` without consulting that entry: a
module named `"undefined"` can never deny access. -/
theorem checkPermissions_undefined_entry_unreachable {α : Type} (tr : α → Bool)
    (p : Permissions α) (rules : Rules α) (pm : PermissionModule α)
    (_hp : alookup p ("undefined") = some pm)
    (hmo : rules.module = some ("undefined")) :
    checkPermissions tr p rules = some true := by
  simp [checkPermissions, hmo]

/-- Witness for C9 at a concrete input: the store maps `"undefined"` to
a module denying the requested ability, yet the result is `true`. -/
theorem checkPermissions_undefined_entry_unreachable_witness :
    checkPermissions (fun _ : Unit => true)
      [("undefined", { abilities := [("read", false)], checks := [] })]
      { module := some ("undefined"), abilities := some ["read"] } = some true :=
  checkPermissions_undefined_entry_unreachable _ _ _
    { abilities := [("read", false)], checks := [] } rfl rfl

/-! ## Claim C10: without a checks list, the target is immaterial -/

/-- C10: two rules identical except for their `target` field, both with
`checks` absent, evaluate equally: the target never influences the
result unless a checks list is supplied alongside it. -/
theorem checkPermissions_target_immaterial_without_checks {α : Type}
    (tr : α → Bool) (p : Permissions α) (r1 r2 : Rules α)
    (hmo : r1.module = r2.module) (hab : r1.abilities = r2.abilities)
    (hc1 : r1.checks = none) (hc2 : r2.checks = none) :
    checkPermissions tr p r1 = checkPermissions tr p r2 := by
  rcases r1 with ⟨mo1, ab1, ch1, tg1⟩
  rcases r2 with ⟨mo2, ab2, ch2, tg2⟩
  simp only at hmo hab hc1 hc2
  subst hmo hab hc1 hc2
  cases mo1 with
  | none => rfl
  | some mn =>
    by_cases hmn : mn = "undefined"
    · simp [checkPermissions, hmn]
    · cases hl : alookup p mn with
      | none => simp [checkPermissions, hmn, hl]
      | some m =>
        have hcr : checksResult tr m none tg1 = checksResult tr m none tg2 := by
          cases tg1 <;> cases tg2 <;> rfl
        simp [checkPermissions, hmn, hl, hcr]

/-- Witness for C10 at a concrete input: same rule on `moduleB` with two
different targets and no checks list; the results coincide. -/
theorem checkPermissions_target_immaterial_without_checks_witness :
    checkPermissions trPair userPermissions
      { module := some ("moduleB"), abilities := some ["write"],
        target := some (true, true) } =
    checkPermissions trPair userPermissions
      { module := some ("moduleB"), abilities := some ["write"],
        target := some (false, false) } :=
  checkPermissions_target_immaterial_without_checks _ _ _ _ rfl rfl rfl rfl

/-! ## Claim C1: `canAllow` versus the conjunction of the matchers

The aggregator returns `!Object.keys(test).find(...)`.  `find` returns
the first *key* whose effective rule fails, and `!""` is `true` in
JavaScript, so a failing rule labelled `""` is silently ignored: the
aggregator is NOT the conjunction of the matcher over all keys. -/

/-- C1 (bug evaluation): with an empty permission store and the single
test rule labelled `""`, the effective rule `{module: ""}` fails the
matcher (`some false`), yet `canAllow` returns `some true` — so
`canAllow` differs from the conjunction of `checkPermissions` over the
keys.  (For every nonempty label the conjunction reading is honoured;
the empty conjunction is `true`.) -/
theorem canAllow_empty_label_bug :
    canAllow (fun _ : Unit => true) ([] : Permissions Unit)
      [("", {})] = some true ∧
    checkPermissions (fun _ : Unit => true) ([] : Permissions Unit)
      { module := some ("") } = some false := by
  exact ⟨rfl, rfl⟩

/-! ## Claim C2: abilities step — absence or `false` must deny

The abilities step is `if (rules.abilities.find((a) => !abilities[a]))`.
`find` returns the failing ability *name*; when that name is the empty
string the `if` guard is falsy and the denial is skipped. -/

/-- C2 (bug evaluation): module `"m"` maps the ability `""` explicitly
to `false` (and `"write"` to `false`); a rule requiring ability `""`
nevertheless passes (`some true`), although the claim (and the
function's own documentation) requires `false` for any ability mapped
to `false` or absent.  The second conjunct shows the same store denying
the nonempty ability `"write"`, and the third shows an absent ability
name `""` also passing. -/
theorem checkPermissions_empty_ability_bug :
    checkPermissions (fun _ : Unit => true)
      [("m", { abilities := [("", false), ("write", false)], checks := [] })]
      { module := some ("m"), abilities := some [""] } = some true ∧
    checkPermissions (fun _ : Unit => true)
      [("m", { abilities := [("", false), ("write", false)], checks := [] })]
      { module := some ("m"), abilities := some ["write"] } = some false ∧
    checkPermissions (fun _ : Unit => true)
      [("m", { abilities := [], checks := [] })]
      { module := some ("m"), abilities := some [""] } = some true := by
  exact ⟨rfl, rfl, rfl⟩

/-! ## Claim C3: checks step semantics -/

/-- Permission store for the C3 counterexample: module `"m"` declares a
check `"c"` and a check named `""`, both rejecting every target. -/
def checksCexPermissions : Permissions Bool :=
  [("m", { abilities := [],
           checks := [("c", fun _ => false), ("", fun _ => false)] })]

/-- C3 (counterexample): the claim promises that whenever the checks
list is present and the target is *provided* (not absent), every named
predicate is invoked on it and a `false` predicate forces a `false`
result.  Two concrete refutations (JS truthiness on a boolean target is
the identity):
(1) the provided target `false` is falsy, so `rules.checks &&
rules.target` skips the step entirely and the failing check `"c"` is
never invoked — result `some true`;
(2) with the truthy target `true`, the failing check named `""` is
found by `find`, but the guard `if (<found>)` sees the falsy string
`""` and does not deny — result again `some true`.
The third conjunct shows the ordinary denial for contrast. -/
theorem checkPermissions_checks_claim_cex :
    checkPermissions (fun b : Bool => b) checksCexPermissions
      { module := some ("m"), checks := some ["c"],
        target := some false } = some true ∧
    checkPermissions (fun b : Bool => b) checksCexPermissions
      { module := some ("m"), checks := some [""],
        target := some true } = some true ∧
    checkPermissions (fun b : Bool => b) checksCexPermissions
      { module := some ("m"), checks := some ["c"],
        target := some true } = some false := by
  exact ⟨rfl, rfl, rfl⟩

/-- When every check name in the list is nonempty and resolvable in the
module, the checks step (with a truthy target) returns exactly the
conjunction of the predicates evaluated at the target. -/
lemma checksResult_resolvable {α : Type} (tr : α → Bool)
    (m : PermissionModule α) (t : α) (cs : List String)
    (htr : tr t = true)
    (hres : ∀ c ∈ cs, c ≠ "" ∧ (alookup m.checks c).isSome = true) :
    checksResult tr m (some cs) (some t) =
      some (cs.all fun c => ((alookup m.checks c).map fun f => f t).getD false) := by
  induction cs with
  | nil => simp [checksResult, findFailingCheck, htr]
  | cons c cs ih =>
    obtain ⟨hne, hs⟩ := hres c (List.mem_cons_self c cs)
    have ih' := ih fun c' hc' => hres c' (List.mem_cons_of_mem c hc')
    cases hf : alookup m.checks c with
    | none => simp [hf] at hs
    | some f =>
      simp only [checksResult, htr, if_true, findFailingCheck, hf] at ih' ⊢
      cases hft : f t with
      | false => simp [hft, hne, hf]
      | true =>
        simp only [hft, if_true, List.all_cons, hf, Option.map_some',
          Option.getD_some, Bool.true_and]
        exact ih'

/-- C3 (amended): for every rule whose module resolves to `m`, with the
abilities step not denying, a checks list `cs` present, a target `t`
provided **and truthy**, and every name in `cs` nonempty and resolvable
in `m.checks`, the matcher returns `true` exactly when every named
predicate returns `true` at the target, and `false` as soon as one
returns `false`. -/
theorem checkPermissions_checks_semantics {α : Type} (tr : α → Bool)
    (p : Permissions α) (rules : Rules α) (mn : String)
    (m : PermissionModule α) (cs : List String) (t : α)
    (hmo : rules.module = some mn) (hmu : mn ≠ "undefined")
    (hp : alookup p mn = some m)
    (hab : abilitiesDeny m rules.abilities = false)
    (hch : rules.checks = some cs) (htg : rules.target = some t)
    (htr : tr t = true)
    (hres : ∀ c ∈ cs, c ≠ "" ∧ (alookup m.checks c).isSome = true) :
    checkPermissions tr p rules =
      some (cs.all fun c => ((alookup m.checks c).map fun f => f t).getD false) := by
  rw [← checksResult_resolvable tr m t cs htr hres, ← hch, ← htg]
  simp [checkPermissions, hmo, hmu, hp, hab]

/-- Witness for C3 at a concrete input: on the sample store, the rule
requiring check `"hasAccess"` on `moduleB` with a valid-user target
evaluates to `some true` via the amended theorem. -/
theorem checkPermissions_checks_semantics_witness :
    checkPermissions trPair userPermissions
      { module := some ("moduleB"), checks := some ["hasAccess"],
        target := some (true, true) } = some true := by
  rw [checkPermissions_checks_semantics trPair userPermissions
    { module := some ("moduleB"), checks := some ["hasAccess"],
      target := some (true, true) }
    "moduleB"
    { abilities := [("read", true), ("write", true)],
      checks := [("hasAccess", fun t => t.2)] }
    ["hasAccess"] (true, true) rfl (by decide) rfl rfl rfl rfl rfl
    (fun c hc => by
      obtain rfl := List.mem_singleton.mp hc
      exact ⟨by decide, rfl⟩)]
  rfl

/-! ## Claim C7: an unresolvable check name that is reached faults -/

/-- If every check name before `c` resolves to a predicate accepting
the target and `c` is unresolvable in the module, the iteration of the
checks step reaches `c` and throws (models the JS `TypeError` from
invoking `undefined`). -/
lemma findFailingCheck_reaches_missing {α : Type} (m : PermissionModule α)
    (t : α) (c : String) (post : List String)
    (hmiss : alookup m.checks c = none) :
    ∀ early : List String,
      (∀ c' ∈ early, ∃ f, alookup m.checks c' = some f ∧ f t = true) →
      findFailingCheck m t (early ++ c :: post) = none := by
  intro early
  induction early with
  | nil => intro _; simp [findFailingCheck, hmiss]
  | cons c' early ih =>
    intro h
    obtain ⟨f, hf, hft⟩ := h c' (List.mem_cons_self c' early)
    simp only [List.cons_append, findFailingCheck, hf, hft, if_true]
    exact ih fun x hx => h x (List.mem_cons_of_mem c' hx)

/-- C7: for every rule whose module resolves to `m`, with the abilities
step not denying, a truthy target provided, and a checks list in which
the name `c` is not declared in `m.checks` while every name before it
resolves and passes, `checkPermissions` does not return a boolean: it
faults (`none`, modelling the propagated runtime error from invoking a
missing predicate). -/
theorem checkPermissions_missing_check_faults {α : Type} (tr : α → Bool)
    (p : Permissions α) (rules : Rules α) (mn : String)
    (m : PermissionModule α) (early post : List String) (c : String) (t : α)
    (hmo : rules.module = some mn) (hmu : mn ≠ "undefined")
    (hp : alookup p mn = some m)
    (hab : abilitiesDeny m rules.abilities = false)
    (hch : rules.checks = some (early ++ c :: post))
    (htg : rules.target = some t) (htr : tr t = true)
    (hmiss : alookup m.checks c = none)
    (hearly : ∀ c' ∈ early, ∃ f, alookup m.checks c' = some f ∧ f t = true) :
    checkPermissions tr p rules = none := by
  have h := findFailingCheck_reaches_missing m t c post hmiss early hearly
  simp [checkPermissions, hmo, hmu, hp, hab, checksResult, hch, htg, htr, h]

/-- Permission store for the C7 witness: module `"m"` declares only the
check `"ok"`, which accepts every target. -/
def faultPermissions : Permissions Unit :=
  [("m", { abilities := [], checks := [("ok", fun _ => true)] })]

/-- Witness for C7 at a concrete input: the rule lists checks
`["ok", "missing"]`; `"ok"` passes, `"missing"` is undeclared, and the
evaluation faults. -/
theorem checkPermissions_missing_check_faults_witness :
    checkPermissions (fun _ : Unit => true) faultPermissions
      { module := some ("m"), checks := some ["ok", "missing"],
        target := some () } = none :=
  checkPermissions_missing_check_faults (fun _ : Unit => true)
    faultPermissions
    { module := some ("m"), checks := some ["ok", "missing"],
      target := some () }
    "m" { abilities := [], checks := [("ok", fun _ => true)] }
    ["ok"] [] "missing" ()
    rfl (by decide) rfl rfl rfl rfl rfl rfl
    (fun c' hc' => by
      obtain rfl := List.mem_singleton.mp hc'
      exact ⟨fun _ => true, rfl, rfl⟩)
